import Mathlib

/-!
Shallow embedding of the facebook-webhook repository (two variants:
the single-tenant `server.js` and the multi-tenant variant) in Lean 4,
with theorems settling the specification claims.

Conventions of the embedding:
* JavaScript strings are Lean `String`s; `String.toLowerCase`,
  `String.prototype.includes`, `split(' ')` and `startsWith` are embedded
  as executable functions on `List Char` defined below.
* JavaScript truthiness on a string `s` is `!s.isEmpty`; an absent
  (`undefined`) request field is `Option.none`.
* Network calls are oracles (`CompletionRequest → NetResult`,
  `SendRequest → SendOutcome`); the handlers return the list of observable
  actions (log writes, HTTP responses sent, outbound requests) in the order
  the code performs them.
-/

namespace FBWebhook

/-- `isPrefOf sub l` holds when `sub` is a prefix of `l` (character lists). -/
def isPrefOf : List Char → List Char → Bool
  | [], _ => true
  | _ :: _, [] => false
  | a :: as, b :: bs => a == b && isPrefOf as bs

/-- Embedding of JavaScript `hay.includes(sub)`: substring containment. -/
def containsSub (sub : List Char) : List Char → Bool
  | [] => isPrefOf sub []
  | c :: rest => isPrefOf sub (c :: rest) || containsSub sub rest

/-- Embedding of JavaScript `s.startsWith(t)`. -/
def jsStartsWith (s t : String) : Bool := isPrefOf t.data s.data

/-- Embedding of JavaScript `a || b` on strings (empty string is falsy). -/
def jsOrStr (a b : String) : String := if a.isEmpty then b else a

/-- Split a character list at every character satisfying `p`, keeping empty
pieces, as JavaScript `split` does. -/
def splitWhen (p : Char → Bool) : List Char → List (List Char)
  | [] => [[]]
  | c :: rest =>
    if p c then [] :: splitWhen p rest
    else
      match splitWhen p rest with
      | [] => [[c]]
      | h :: t => (c :: h) :: t

/-- Embedding of JavaScript `s.split(sep)` for a one-character separator. -/
def splitOnChar (sep : Char) (l : List Char) : List (List Char) :=
  splitWhen (fun c => c == sep) l

/-- Embedding of JavaScript `s.toLowerCase()` at the character-list level. -/
def lowerChars (s : String) : List Char := s.data.map Char.toLower

/- ===================== Data model ===================== -/

/-- A multi-tenant page configuration record (`pages.json` entry). -/
structure Page where
  id : String
  name : String
  verifyToken : String
  pageAccessToken : String
  openrouterKey : String
  aiModel : String
  knowledgeBase : List String
  enabled : Bool
  createdAt : String
deriving DecidableEq, Repr

/-- The multi-tenant global configuration (`config.json`). -/
structure GlobalConfig where
  defaultAiModel : String
  openrouterKey : String
deriving DecidableEq, Repr

/-- The single-tenant configuration record (`config.json` of `server.js`). -/
structure Config where
  verifyToken : String
  pageAccessToken : String
  openrouterKey : String
  aiModel : String
deriving DecidableEq, Repr

/-- A knowledge-base file: `name` and markdown `content`. -/
structure KFile where
  name : String
  content : String
deriving DecidableEq, Repr

/- ===================== Event log (logMessage) ===================== -/

/-- Embedding of `logMessage`: `messageLog.unshift(entry)` followed by
`if (messageLog.length > 100) messageLog.pop()`. The entry type is
abstract. -/
def logMessage {α : Type} (e : α) (log : List α) : List α :=
  let l := e :: log
  if 100 < l.length then l.dropLast else l

/-- The operations that mutate the in-memory message log: `logMessage`
pushes, and `DELETE /api/logs` clears (`messageLog.length = 0`). -/
inductive LogOp (α : Type) where
  | push (e : α)
  | clear
deriving DecidableEq, Repr

/-- Run a sequence of log operations from the initial empty log. -/
def runLog {α : Type} (ops : List (LogOp α)) : List α :=
  ops.foldl (fun log op =>
    match op with
    | LogOp.push e => logMessage e log
    | LogOp.clear => []) []

/- ===================== Knowledge-store name sanitization ===================== -/

/-- The character class `[a-zA-Z0-9-_]` of the sanitizing regular
expression in `POST /api/knowledge`. -/
def allowedChar (c : Char) : Bool :=
  (decide ('a' ≤ c) && decide (c ≤ 'z')) ||
  (decide ('A' ≤ c) && decide (c ≤ 'Z')) ||
  (decide ('0' ≤ c) && decide (c ≤ '9')) ||
  c == '-' || c == '_'

/-- Embedding of `name.replace(/[^a-zA-Z0-9-_]/g, '')`. -/
def sanitizeName (name : String) : String :=
  String.mk (name.data.filter allowedChar)

/-- One step of path normalization: empty and `.` components are dropped,
`..` pops the last directory, anything else descends. This models how
Node `path.join` resolves the components of its arguments. -/
def normComp (stack : List String) (comp : String) : List String :=
  if comp = "" ∨ comp = "." then stack
  else if comp = ".." then stack.dropLast
  else stack ++ [comp]

/-- Resolve a relative component list against a base directory. -/
def resolvePath (base : List String) (comps : List String) : List String :=
  comps.foldl normComp base

/-- The path written by `POST /api/knowledge` for a given `name`, as a
component list: `path.join(KNOWLEDGE_DIR, safeName + ".md")` where
`safeName = sanitizeName name`, with `kdir` the components of
`KNOWLEDGE_DIR`. -/
def knowledgeFilePath (kdir : List String) (name : String) : List String :=
  resolvePath kdir ((splitOnChar '/' (sanitizeName name ++ ".md").data).map String.mk)

/- ===================== Knowledge matcher (searchKnowledge) ===================== -/

/-- The `relevant` list built by the loop of `searchKnowledge`, in store
iteration order: a file is kept when the lowercased content contains the
whole lowercased query, or contains some piece of the lowercased query
split on the space character that is longer than three characters. -/
def relevantContents (query : String) : List KFile → List String
  | [] => []
  | file :: rest =>
    let lowerContent := lowerChars file.content
    let lowerQuery := lowerChars query
    if containsSub lowerQuery lowerContent ||
        (splitOnChar ' ' lowerQuery).any
          (fun word => decide (3 < word.length) && containsSub word lowerContent)
    then file.content :: relevantContents query rest
    else relevantContents query rest

/-- Embedding of `searchKnowledge`: the kept contents joined with the
fixed delimiter (`relevant.join('\n\n---\n\n')`). -/
def searchKnowledge (query : String) (kbFiles : List KFile) : String :=
  String.intercalate "\n\n---\n\n" (relevantContents query kbFiles)

/-- Inclusion condition of the claim, with the query split at single space
characters (what `split(' ')` does). -/
def spaceTokenMatch (query content : String) : Prop :=
  containsSub (lowerChars query) (lowerChars content) = true ∨
  ∃ w ∈ splitOnChar ' ' (lowerChars query),
    3 < w.length ∧ containsSub w (lowerChars content) = true

instance (query content : String) : Decidable (spaceTokenMatch query content) := by
  unfold spaceTokenMatch; exact inferInstance

/-- Inclusion condition as the claim words it: the query split at every
whitespace character. -/
def whitespaceTokenMatch (query content : String) : Prop :=
  containsSub (lowerChars query) (lowerChars content) = true ∨
  ∃ w ∈ splitWhen Char.isWhitespace (lowerChars query),
    3 < w.length ∧ containsSub w (lowerChars content) = true

instance (query content : String) : Decidable (whitespaceTokenMatch query content) := by
  unfold whitespaceTokenMatch; exact inferInstance

/- ===================== CRUD updates ===================== -/

/-- A `PUT /api/pages/:id` request body; `none` is an absent field. -/
structure PageUpdateReq where
  name : Option String
  verifyToken : Option String
  pageAccessToken : Option String
  openrouterKey : Option String
  aiModel : Option String
  knowledgeBase : Option (List String)
  enabled : Option Bool
deriving DecidableEq, Repr

/-- Embedding of `if (v) field = v` for a string field. -/
def updIfTruthy (cur : String) (v : Option String) : String :=
  match v with
  | some s => if !s.isEmpty then s else cur
  | none => cur

/-- Embedding of `if (v && !v.startsWith('***')) field = v` for a secret
field. -/
def updSecret (cur : String) (v : Option String) : String :=
  match v with
  | some s => if !s.isEmpty && !(jsStartsWith s "***") then s else cur
  | none => cur

/-- The per-record mutation performed by `PUT /api/pages/:id` once the page
is found: `knowledgeBase` is replaced when present (`if (knowledgeBase)`),
`enabled` whenever not `undefined`. -/
def applyPageUpdate (req : PageUpdateReq) (p : Page) : Page :=
  { p with
    name := updIfTruthy p.name req.name
    verifyToken := updSecret p.verifyToken req.verifyToken
    pageAccessToken := updSecret p.pageAccessToken req.pageAccessToken
    openrouterKey := updSecret p.openrouterKey req.openrouterKey
    aiModel := updIfTruthy p.aiModel req.aiModel
    knowledgeBase := match req.knowledgeBase with
      | some kb => kb
      | none => p.knowledgeBase
    enabled := match req.enabled with
      | some b => b
      | none => p.enabled }

/-- Embedding of `PUT /api/pages/:id`: find the first page whose `id`
matches (`findIndex`), `404` (`none`) when absent, otherwise update that
record in place and save. -/
def putApiPages (pages : List Page) (i : String) (req : PageUpdateReq) :
    Option (List Page) :=
  match pages with
  | [] => none
  | p :: rest =>
    if p.id == i then some (applyPageUpdate req p :: rest)
    else (putApiPages rest i req).map (p :: ·)

/-- Embedding of the single-tenant `POST /api/config`: each secret is
copied unless it starts with the mask marker; `aiModel` is always copied. -/
def postApiConfig (req cur : Config) : Config :=
  let c1 := if !(jsStartsWith req.verifyToken "***") then
    { cur with verifyToken := req.verifyToken } else cur
  let c2 := if !(jsStartsWith req.pageAccessToken "***") then
    { c1 with pageAccessToken := req.pageAccessToken } else c1
  let c3 := if !(jsStartsWith req.openrouterKey "***") then
    { c2 with openrouterKey := req.openrouterKey } else c2
  { c3 with aiModel := req.aiModel }

/- ===================== Webhook verification (GET /webhook) ===================== -/

/-- An HTTP response as observed by the platform caller. -/
structure HttpResponse where
  status : Nat
  body : String
deriving DecidableEq, Repr

/-- Embedding of Express `res.sendStatus(403)`: status 403 with its
standard status message as the text body. -/
def forbiddenResponse : HttpResponse := ⟨403, "Forbidden"⟩

/-- Single-tenant `GET /webhook`: succeed iff `hub.mode` is `subscribe` and
`hub.verify_token` equals the configured token; echo the challenge. Query
parameters are `none` when absent. -/
def getWebhook (config : Config) (mode tok challenge : Option String) :
    HttpResponse :=
  if mode == some "subscribe" && tok == some config.verifyToken then
    ⟨200, challenge.getD ""⟩
  else forbiddenResponse

/-- Multi-tenant `GET /webhook`: the token must match some configured
page's `verifyToken` (`pages.some(...)`). -/
def getWebhookMulti (pages : List Page) (mode tok challenge : Option String) :
    HttpResponse :=
  let validToken := pages.any (fun p => tok == some p.verifyToken)
  if mode == some "subscribe" && validToken then
    ⟨200, challenge.getD ""⟩
  else forbiddenResponse

/- ===================== Webhook pipeline (POST /webhook) ===================== -/

/-- One messaging item of an inbound entry. `text` is `none` when the item
has no message or the message has no (or an absent) text field; the code's
guard `if (message && message.text)` additionally rejects an empty text. -/
structure MsgEvent where
  senderId : String
  text : Option String
deriving DecidableEq, Repr

/-- One entry of the inbound webhook payload. -/
structure Entry where
  id : String
  messaging : List MsgEvent
deriving DecidableEq, Repr

/-- The inbound webhook payload. -/
structure WebhookBody where
  object : String
  entry : List Entry
deriving DecidableEq, Repr

/-- The request `generateAIResponse` issues to the completion endpoint. -/
structure CompletionRequest where
  apiKey : String
  model : String
  systemPrompt : String
  userMessage : String
  maxTokens : Nat
deriving DecidableEq, Repr

/-- The request `sendAutoReply` issues to the message-send endpoint. -/
structure SendRequest where
  recipientId : String
  text : String
  accessToken : String
deriving DecidableEq, Repr

/-- Oracle outcome of the completion HTTP call: `success content` carries
`response.data.choices[0]?.message?.content` (absent or empty modelled by
`none` / `some ""`), `failure` carries the message the catch block
computes (`error.response?.data?.error?.message || error.message`). -/
inductive NetResult where
  | success (content : Option String)
  | failure (msg : String)
deriving DecidableEq, Repr

/-- Oracle outcome of the message-send HTTP call. -/
inductive SendOutcome where
  | ok
  | fail (msg : String)
deriving DecidableEq, Repr

/-- The `{response} | {error}` result object of `generateAIResponse`. -/
inductive AIResult where
  | response (text : String)
  | error (msg : String)
deriving DecidableEq, Repr

/-- Structured payloads of `logMessage` calls made by the pipeline. -/
inductive LogData where
  | received (body : WebhookBody)
  | verify (mode : Option String) (tokenMatch : Bool)
  | message (pageName : Option String) (senderId text : String)
  | sent (senderId reply : String)
  | errMsg (msg : String)
  | skipMsg (msg : String)
deriving DecidableEq, Repr

/-- Observable actions of the webhook POST pipeline, in program order:
log writes, the HTTP response sent to the platform, the point where the
owning tenant is resolved, the knowledge search, and outbound requests. -/
inductive Action where
  | log (ty : String) (data : LogData)
  | respond (status : Nat) (body : String)
  | resolveTenant (entryId : String)
  | search (query : String)
  | completion (req : CompletionRequest)
  | send (req : SendRequest)
deriving DecidableEq, Repr

/-- The fixed persona/guideline system prompt, with the knowledge context
section present only when the context is non-empty. -/
def systemPromptFor (kbContext : String) : String :=
  "You are a helpful customer support bot for a Facebook Page. \n" ++
  (if kbContext.isEmpty then "" else
    "Use the following knowledge base to answer questions:\n\n" ++ kbContext ++ "\n\n") ++
  "\nGuidelines:\n- Be friendly and helpful\n- Keep responses concise\n- If you don\x27t know something, say you\x27ll get back to the user\n- Don\x27t make up information\n- Always be polite and professional"

/-- Embedding of the multi-tenant `generateAIResponse(userMessage,
kbContext, pageId)`: resolves the page by `pageId`, the key as
`page?.openrouterKey || config.openrouterKey` and the model as
`page?.aiModel || config.defaultAiModel || 'openai/gpt-5.2'`; with no key
it returns the error object without calling the network. The second
component lists the completion requests issued. -/
def generateAIResponse (config : GlobalConfig) (pages : List Page)
    (pageId : Option String) (userMessage kbContext : String)
    (cnet : CompletionRequest → NetResult) : AIResult × List CompletionRequest :=
  let page := pages.find? (fun p => pageId == some p.id)
  let apiKey := jsOrStr ((page.map Page.openrouterKey).getD "") config.openrouterKey
  let model := jsOrStr (jsOrStr ((page.map Page.aiModel).getD "") config.defaultAiModel)
    "openai/gpt-5.2"
  if apiKey.isEmpty then
    (AIResult.error "OpenRouter API key not configured for this page", [])
  else
    let req : CompletionRequest := ⟨apiKey, model, systemPromptFor kbContext, userMessage, 500⟩
    match cnet req with
    | NetResult.success content =>
      (AIResult.response (jsOrStr (content.getD "") "No response generated"), [req])
    | NetResult.failure msg => (AIResult.error msg, [req])

/-- Embedding of the single-tenant `generateAIResponse(userMessage,
kbContext)` of `server.js`. -/
def generateAIResponseSingle (config : Config) (userMessage kbContext : String)
    (cnet : CompletionRequest → NetResult) : AIResult × List CompletionRequest :=
  if config.openrouterKey.isEmpty then
    (AIResult.error "OpenRouter API key not configured", [])
  else
    let req : CompletionRequest :=
      ⟨config.openrouterKey, jsOrStr config.aiModel "openai/gpt-5.2",
        systemPromptFor kbContext, userMessage, 500⟩
    match cnet req with
    | NetResult.success content =>
      (AIResult.response (jsOrStr (content.getD "") "No response generated"), [req])
    | NetResult.failure msg => (AIResult.error msg, [req])

/-- Embedding of the single-tenant `sendAutoReply` of `server.js`: abort
with an error log when the credential is falsy, the known placeholder, or
masked; otherwise issue the send request and log the outcome. -/
def sendAutoReply (senderId replyText pageAccessToken : String)
    (snet : SendRequest → SendOutcome) : List Action :=
  if pageAccessToken.isEmpty || pageAccessToken == "YOUR_PAGE_ACCESS_TOKEN" ||
      jsStartsWith pageAccessToken "***" then
    [Action.log "ERROR" (LogData.errMsg "PAGE_ACCESS_TOKEN not configured")]
  else
    let req : SendRequest := ⟨senderId, replyText, pageAccessToken⟩
    Action.send req ::
      (match snet req with
       | SendOutcome.ok => [Action.log "SENT" (LogData.sent senderId replyText)]
       | SendOutcome.fail m => [Action.log "ERROR" (LogData.errMsg m)])

/-- Embedding of the multi-tenant `sendAutoReply`: its guard checks only
that the credential is truthy. -/
def sendAutoReplyMulti (senderId replyText pageAccessToken : String)
    (snet : SendRequest → SendOutcome) : List Action :=
  if pageAccessToken.isEmpty then
    [Action.log "ERROR" (LogData.errMsg "PAGE_ACCESS_TOKEN not configured")]
  else
    let req : SendRequest := ⟨senderId, replyText, pageAccessToken⟩
    Action.send req ::
      (match snet req with
       | SendOutcome.ok => [Action.log "SENT" (LogData.sent senderId replyText)]
       | SendOutcome.fail m => [Action.log "ERROR" (LogData.errMsg m)])

/-- The fixed friendly fallback reply dispatched when the completion client
returned an error (the trailing four characters reproduce the bytes stored
in the source file). -/
def fallbackReply : String :=
  "Thanks for your message! We\x27ll get back to you soon. ðŸ˜Š"

/-- One messaging item of the single-tenant POST /webhook loop: on a
truthy text, log it, search the knowledge base, call the completion
client, then dispatch either the verbatim response or the fallback (also
logging the error). -/
def handleMessagingSingle (config : Config) (docs : List KFile)
    (cnet : CompletionRequest → NetResult) (snet : SendRequest → SendOutcome)
    (m : MsgEvent) : List Action :=
  match m.text with
  | none => []
  | some t =>
    if t.isEmpty then [] else
      Action.log "MESSAGE" (LogData.message none m.senderId t) ::
      Action.search t ::
      (let res := generateAIResponseSingle config t (searchKnowledge t docs) cnet
       (res.2.map Action.completion) ++
       (match res.1 with
        | AIResult.response r =>
          if r.isEmpty then [] else
            sendAutoReply m.senderId r config.pageAccessToken snet
        | AIResult.error e =>
          if e.isEmpty then [] else
            sendAutoReply m.senderId fallbackReply config.pageAccessToken snet ++
            [Action.log "ERROR" (LogData.errMsg e)]))

/-- One messaging item of the multi-tenant POST /webhook loop, for the
already-resolved page `pc`. -/
def handleMessagingMulti (config : GlobalConfig) (pages : List Page) (pc : Page)
    (docs : List KFile) (cnet : CompletionRequest → NetResult)
    (snet : SendRequest → SendOutcome) (m : MsgEvent) : List Action :=
  match m.text with
  | none => []
  | some t =>
    if t.isEmpty then [] else
      Action.log "MESSAGE" (LogData.message (some pc.name) m.senderId t) ::
      Action.search t ::
      (let res := generateAIResponse config pages (some pc.id) t (searchKnowledge t docs) cnet
       (res.2.map Action.completion) ++
       (match res.1 with
        | AIResult.response r =>
          if r.isEmpty then [] else
            sendAutoReplyMulti m.senderId r pc.pageAccessToken snet
        | AIResult.error e =>
          if e.isEmpty then [] else
            sendAutoReplyMulti m.senderId fallbackReply pc.pageAccessToken snet ++
            [Action.log "ERROR" (LogData.errMsg e)]))

/-- One entry of the multi-tenant POST /webhook loop: resolve the owning
page by `p.id === pageId || p.pageAccessToken?.includes(pageId)`; log and
skip when unresolved or disabled, else process each messaging item. -/
def handleEntryMulti (config : GlobalConfig) (pages : List Page)
    (docs : List KFile) (cnet : CompletionRequest → NetResult)
    (snet : SendRequest → SendOutcome) (e : Entry) : List Action :=
  Action.resolveTenant e.id ::
  (match pages.find? (fun p => p.id == e.id || containsSub e.id.data p.pageAccessToken.data) with
   | none => [Action.log "ERROR" (LogData.errMsg ("Page not configured: " ++ e.id))]
   | some pc =>
     if !pc.enabled then
       [Action.log "SKIP" (LogData.skipMsg ("Page disabled: " ++ pc.name))]
     else
       (e.messaging.map (handleMessagingMulti config pages pc docs cnet snet)).flatten)

/-- Embedding of the single-tenant `POST /webhook` handler: log receipt,
immediately answer `200 "OK"`, then process the entries when the payload's
object is `page`. -/
def postWebhook (config : Config) (docs : List KFile)
    (cnet : CompletionRequest → NetResult) (snet : SendRequest → SendOutcome)
    (body : WebhookBody) : List Action :=
  Action.log "RECEIVED" (LogData.received body) ::
  Action.respond 200 "OK" ::
  (if body.object == "page" then
    (body.entry.map (fun e =>
      (e.messaging.map (handleMessagingSingle config docs cnet snet)).flatten)).flatten
  else [])

/-- Embedding of the multi-tenant `POST /webhook` handler. -/
def postWebhookMulti (config : GlobalConfig) (pages : List Page)
    (docs : List KFile) (cnet : CompletionRequest → NetResult)
    (snet : SendRequest → SendOutcome) (body : WebhookBody) : List Action :=
  Action.log "RECEIVED" (LogData.received body) ::
  Action.respond 200 "OK" ::
  (if body.object == "page" then
    (body.entry.map (handleEntryMulti config pages docs cnet snet)).flatten
  else [])

/-- Recognizer for the HTTP-response action. -/
def isRespond : Action → Bool
  | Action.respond _ _ => true
  | _ => false

/- ===================== Spec-side resolution (for C6) ===================== -/

/-- Effective completion-API key as the claim words it: the tenant value
when present and non-empty, else the global key. -/
def effectiveKeySpec (page : Option Page) (g : GlobalConfig) : String :=
  match page with
  | some p => if p.openrouterKey ≠ "" then p.openrouterKey else g.openrouterKey
  | none => g.openrouterKey

/-- Effective model as the claim words it, completed with the hardcoded
final fallback the code applies when the global default is empty. -/
def effectiveModelSpec (page : Option Page) (g : GlobalConfig) : String :=
  match page with
  | some p => if p.aiModel ≠ "" then p.aiModel
      else if g.defaultAiModel ≠ "" then g.defaultAiModel else "openai/gpt-5.2"
  | none => if g.defaultAiModel ≠ "" then g.defaultAiModel else "openai/gpt-5.2"

/- ===================== Theorems: event log (C8) ===================== -/

theorem logMessage_length_le {α : Type} (e : α) (log : List α)
    (h : log.length ≤ 100) : (logMessage e log).length ≤ 100 := by
  simp only [logMessage]
  split
  · simp only [List.length_dropLast, List.length_cons]
    omega
  · next hlt =>
    simp only [List.length_cons] at hlt ⊢
    omega

theorem runLog_foldl_length_le {α : Type} (ops : List (LogOp α)) :
    ∀ log : List α, log.length ≤ 100 →
      (ops.foldl (fun log op =>
        match op with
        | LogOp.push e => logMessage e log
        | LogOp.clear => []) log).length ≤ 100 := by
  induction ops with
  | nil => intro log h; simpa using h
  | cons op rest ih =>
    intro log h
    cases op with
    | push e => exact ih _ (logMessage_length_le e log h)
    | clear => exact ih _ (by simp)

/-- C8: after every logging operation the buffer holds at most 100
entries — any sequence of pushes and clears starting from the empty buffer
stays within the cap, and a single `logMessage` preserves it — and logging
onto a buffer that already holds exactly 100 entries prepends the new
entry and evicts only the oldest (last) entry, keeping the most-recent-first
order of the remaining entries. -/
theorem c8_log_buffer_capacity :
    (∀ (α : Type) (ops : List (LogOp α)), (runLog ops).length ≤ 100) ∧
    (∀ (α : Type) (e : α) (log : List α), log.length ≤ 100 →
      (logMessage e log).length ≤ 100) ∧
    (∀ (α : Type) (e : α) (log : List α), log.length = 100 →
      logMessage e log = e :: log.dropLast) := by
  refine ⟨?_, ?_, ?_⟩
  · intro α ops
    exact runLog_foldl_length_le ops [] (by simp)
  · intro α e log h
    exact logMessage_length_le e log h
  · intro α e log h
    simp only [logMessage]
    rw [if_pos (by simp only [List.length_cons, h]; omega)]
    cases log with
    | nil => simp at h
    | cons x xs => rfl

/-- C8 witness: logging onto a concrete full buffer of 100 entries. -/
theorem c8_log_buffer_capacity_witness :
    logMessage 5 (List.replicate 100 0) = 5 :: (List.replicate 100 0).dropLast :=
  c8_log_buffer_capacity.2.2 Nat 5 (List.replicate 100 0) (by simp)

/- ===================== Theorems: name sanitization (C9) ===================== -/

theorem splitWhen_eq_single {p : Char → Bool} :
    ∀ {l : List Char}, (∀ c ∈ l, p c = false) → splitWhen p l = [l] := by
  intro l
  induction l with
  | nil => intro _; rfl
  | cons c rest ih =>
    intro h
    have hc : p c = false := h c (by simp)
    have hr : splitWhen p rest = [rest] := ih (fun x hx => h x (by simp [hx]))
    simp [splitWhen, hc, hr]

theorem sanitize_data_allowed (name : String) :
    ∀ c ∈ (sanitizeName name).data, allowedChar c = true := by
  intro c hc
  have hm : c ∈ name.data.filter allowedChar := by simpa [sanitizeName] using hc
  exact (List.mem_filter.mp hm).2

theorem knowledgeFilePath_inside (kdir : List String) (name : String) :
    knowledgeFilePath kdir name = kdir ++ [sanitizeName name ++ ".md"] := by
  have hdata : (sanitizeName name ++ ".md").data =
      name.data.filter allowedChar ++ ['.', 'm', 'd'] := by
    rw [String.data_append]; rfl
  have hnosl : ∀ c ∈ (sanitizeName name ++ ".md").data, (c == '/') = false := by
    rw [hdata]
    intro c hc
    rcases List.mem_append.mp hc with h1 | h2
    · have hall := (List.mem_filter.mp h1).2
      cases hb : (c == '/') with
      | false => rfl
      | true =>
        exfalso
        have hce : c = '/' := eq_of_beq hb
        subst hce
        exact absurd hall (by decide)
    · fin_cases h2 <;> rfl
  have hlen : (sanitizeName name ++ ".md").data.length =
      (name.data.filter allowedChar).length + 3 := by
    rw [hdata]; simp
  unfold knowledgeFilePath splitOnChar
  rw [splitWhen_eq_single hnosl]
  simp only [List.map_cons, List.map_nil]
  show resolvePath kdir [sanitizeName name ++ ".md"] = kdir ++ [sanitizeName name ++ ".md"]
  simp only [resolvePath, List.foldl_cons, List.foldl_nil]
  have h1 : ¬(sanitizeName name ++ ".md" = "" ∨ sanitizeName name ++ ".md" = ".") := by
    rintro (h | h) <;>
      (have hd := congrArg String.data h
       rw [hdata] at hd
       have hl := congrArg List.length hd
       simp only [List.length_append, List.length_cons, List.length_nil] at hl
       omega)
  have h2 : ¬(sanitizeName name ++ ".md" = "..") := by
    intro h
    have hd := congrArg String.data h
    rw [hdata] at hd
    have hl := congrArg List.length hd
    simp only [List.length_append, List.length_cons, List.length_nil] at hl
    omega
  unfold normComp
  rw [if_neg h1, if_neg h2]

/-- C9: for every knowledge upsert, the storage key is the name with every
character outside `[A-Za-z0-9-_]` removed, so the resolved write path is
always the knowledge directory followed by that single `.md` file
component — inside the knowledge directory; in particular the name
`"a/b.md"` writes `abmd.md` inside the knowledge directory and touches
nothing outside it. -/
theorem c9_sanitized_path_stays_inside :
    (∀ (kdir : List String) (name : String),
      knowledgeFilePath kdir name = kdir ++ [sanitizeName name ++ ".md"]) ∧
    (∀ name : String, (sanitizeName name).data.all allowedChar = true) ∧
    knowledgeFilePath ["data", "knowledge"] "a/b.md" =
      ["data", "knowledge", "abmd.md"] := by
  refine ⟨knowledgeFilePath_inside, ?_, rfl⟩
  intro name
  rw [List.all_eq_true]
  exact sanitize_data_allowed name

/- ===================== Theorems: knowledge matcher (C4) ===================== -/

theorem matchCond_eq_decide (query content : String) :
    (containsSub (lowerChars query) (lowerChars content) ||
      (splitOnChar ' ' (lowerChars query)).any
        (fun word => decide (3 < word.length) && containsSub word (lowerChars content)))
    = decide (spaceTokenMatch query content) := by
  rw [Bool.eq_iff_iff]
  simp [spaceTokenMatch, List.any_eq_true]

theorem relevantContents_eq_filter (query : String) (kbFiles : List KFile) :
    relevantContents query kbFiles =
      (kbFiles.filter (fun f => decide (spaceTokenMatch query f.content))).map
        KFile.content := by
  induction kbFiles with
  | nil => rfl
  | cons f rest ih =>
    simp only [relevantContents]
    rw [matchCond_eq_decide]
    by_cases h : spaceTokenMatch query f.content
    · simp [h, ih, List.filter_cons]
    · simp [h, ih, List.filter_cons]

/-- C4 counterexample: with the query `"xx\tfoobar"` and the single
document `"foobar here"`, the claim's whitespace-token condition holds
(token `foobar` is longer than 3 characters and contained), yet
`searchKnowledge` returns the empty result because the code splits the
query only at space characters, so the document is not included. -/
theorem c4_whitespace_counterexample :
    whitespaceTokenMatch "xx\tfoobar" "foobar here" ∧
    searchKnowledge "xx\tfoobar" [⟨"doc", "foobar here"⟩] = "" :=
  ⟨by decide, rfl⟩

/-- C4 (amended): search includes a document iff the lowercased content
contains the full lowercased query, or contains some token of the query
split at single space characters (not at arbitrary whitespace) longer
than 3 characters; included contents are concatenated in store iteration
order with the fixed delimiter, and the result is empty when no document
satisfies the condition. -/
theorem c4_search_characterization :
    (∀ (query : String) (kbFiles : List KFile),
      searchKnowledge query kbFiles =
        String.intercalate "\n\n---\n\n"
          ((kbFiles.filter (fun f => decide (spaceTokenMatch query f.content))).map
            KFile.content)) ∧
    (∀ (query : String) (kbFiles : List KFile),
      (∀ f ∈ kbFiles, ¬ spaceTokenMatch query f.content) →
      searchKnowledge query kbFiles = "") := by
  have h1 : ∀ (query : String) (kbFiles : List KFile),
      searchKnowledge query kbFiles =
        String.intercalate "\n\n---\n\n"
          ((kbFiles.filter (fun f => decide (spaceTokenMatch query f.content))).map
            KFile.content) := by
    intro q l
    unfold searchKnowledge
    rw [relevantContents_eq_filter]
  refine ⟨h1, ?_⟩
  intro q l h
  rw [h1]
  have hfil : l.filter (fun f => decide (spaceTokenMatch q f.content)) = [] :=
    List.filter_eq_nil_iff.mpr (fun f hf => by simpa using h f hf)
  rw [hfil]
  rfl

/-- C4 witness: a query matching nothing yields the empty result. -/
theorem c4_search_characterization_witness :
    searchKnowledge "zzzz" [⟨"d", "abc"⟩] = "" :=
  c4_search_characterization.2 "zzzz" [⟨"d", "abc"⟩] (by decide)

/- ===================== Theorems: CRUD updates (C1, C10) ===================== -/

theorem putApiPages_decomp :
    ∀ {pages : List Page} {i : String} {req : PageUpdateReq} {pages' : List Page},
      putApiPages pages i req = some pages' →
      ∃ pre p post, pages = pre ++ p :: post ∧ p.id = i ∧
        pages' = pre ++ applyPageUpdate req p :: post := by
  intro pages
  induction pages with
  | nil => intro i req pages' h; simp [putApiPages] at h
  | cons q rest ih =>
    intro i req pages' h
    rw [putApiPages] at h
    by_cases hq : q.id == i
    · rw [if_pos hq] at h
      refine ⟨[], q, rest, by simp, eq_of_beq hq, ?_⟩
      simpa using h.symm
    · rw [if_neg hq] at h
      obtain ⟨l', h1, h2⟩ := Option.map_eq_some'.mp h
      obtain ⟨pre, p, post, hsplit, hid, hupd⟩ := ih h1
      exact ⟨q :: pre, p, post, by simp [hsplit], hid, by simp [← h2, hupd]⟩

theorem putApiPages_map_eq {β : Type} (f : Page → β)
    {pages pages' : List Page} {i : String} {req : PageUpdateReq}
    (h : putApiPages pages i req = some pages')
    (hf : ∀ p, f (applyPageUpdate req p) = f p) :
    pages'.map f = pages.map f := by
  obtain ⟨pre, p, post, hsplit, _, hupd⟩ := putApiPages_decomp h
  rw [hsplit, hupd]
  simp [hf]

theorem updSecret_masked {cur s : String} (h : jsStartsWith s "***" = true) :
    updSecret cur (some s) = cur := by
  simp [updSecret, h]

theorem updStr_noop : ∀ (cur : String) (v : Option String),
    (v = none ∨ v = some "") → updIfTruthy cur v = cur := by
  rintro cur v (rfl | rfl) <;> rfl

theorem updSecret_noop : ∀ (cur : String) (v : Option String),
    (v = none ∨ v = some "") → updSecret cur v = cur := by
  rintro cur v (rfl | rfl) <;> rfl

/-- C1: a masked-looking incoming secret (value starting with `***`) never
overwrites the stored secret — for each of `verifyToken`,
`pageAccessToken` and `openrouterKey`, in both the multi-tenant
`PUT /api/pages/:id` and the single-tenant `POST /api/config`. -/
theorem c1_masked_secret_never_overwrites :
    (∀ (pages : List Page) (i : String) (req : PageUpdateReq) (pages' : List Page),
      putApiPages pages i req = some pages' →
      (∀ s, req.verifyToken = some s → jsStartsWith s "***" = true →
        pages'.map Page.verifyToken = pages.map Page.verifyToken) ∧
      (∀ s, req.pageAccessToken = some s → jsStartsWith s "***" = true →
        pages'.map Page.pageAccessToken = pages.map Page.pageAccessToken) ∧
      (∀ s, req.openrouterKey = some s → jsStartsWith s "***" = true →
        pages'.map Page.openrouterKey = pages.map Page.openrouterKey)) ∧
    (∀ (req cur : Config),
      (jsStartsWith req.verifyToken "***" = true →
        (postApiConfig req cur).verifyToken = cur.verifyToken) ∧
      (jsStartsWith req.pageAccessToken "***" = true →
        (postApiConfig req cur).pageAccessToken = cur.pageAccessToken) ∧
      (jsStartsWith req.openrouterKey "***" = true →
        (postApiConfig req cur).openrouterKey = cur.openrouterKey)) := by
  constructor
  · intro pages i req pages' h
    refine ⟨?_, ?_, ?_⟩ <;> intro s hs hmask
    · exact putApiPages_map_eq Page.verifyToken h
        (fun p => by simp [applyPageUpdate, hs, updSecret_masked hmask])
    · exact putApiPages_map_eq Page.pageAccessToken h
        (fun p => by simp [applyPageUpdate, hs, updSecret_masked hmask])
    · exact putApiPages_map_eq Page.openrouterKey h
        (fun p => by simp [applyPageUpdate, hs, updSecret_masked hmask])
  · intro req cur
    refine ⟨?_, ?_, ?_⟩ <;> intro h <;>
      simp only [postApiConfig, h, Bool.not_true, Bool.false_eq_true, if_false] <;>
      (split <;> split <;> rfl)

/-- C1 witness: a concrete update where `verifyToken` comes in masked. -/
theorem c1_masked_secret_never_overwrites_witness :
    List.map Page.verifyToken [⟨"p1", "NewName", "VT", "PA", "KY", "MD", [], true, "ts"⟩] =
      List.map Page.verifyToken [⟨"p1", "Nm", "VT", "PA", "KY", "MD", [], true, "ts"⟩] ∧
    (postApiConfig ⟨"***a", "***b", "***c", "M2"⟩ ⟨"V", "P", "K", "M"⟩).verifyToken = "V" :=
  ⟨(c1_masked_secret_never_overwrites.1
      [⟨"p1", "Nm", "VT", "PA", "KY", "MD", [], true, "ts"⟩] "p1"
      ⟨some "NewName", some "***x", none, none, none, none, none⟩
      [⟨"p1", "NewName", "VT", "PA", "KY", "MD", [], true, "ts"⟩] rfl).1
      "***x" rfl rfl,
   (c1_masked_secret_never_overwrites.2 ⟨"***a", "***b", "***c", "M2"⟩
      ⟨"V", "P", "K", "M"⟩).1 rfl⟩

/-- C10: in `PUT /api/pages/:id`, each of `name`, `verifyToken`,
`pageAccessToken`, `openrouterKey`, `aiModel` and `knowledgeBase` is left
unchanged when the incoming value is absent (or, for the string fields,
the empty string); `enabled` is updated whenever present, including when
it is `false`. -/
theorem c10_absent_or_empty_fields_unchanged :
    ∀ (pages : List Page) (i : String) (req : PageUpdateReq) (pages' : List Page),
      putApiPages pages i req = some pages' →
      ((req.name = none ∨ req.name = some "") →
        pages'.map Page.name = pages.map Page.name) ∧
      ((req.verifyToken = none ∨ req.verifyToken = some "") →
        pages'.map Page.verifyToken = pages.map Page.verifyToken) ∧
      ((req.pageAccessToken = none ∨ req.pageAccessToken = some "") →
        pages'.map Page.pageAccessToken = pages.map Page.pageAccessToken) ∧
      ((req.openrouterKey = none ∨ req.openrouterKey = some "") →
        pages'.map Page.openrouterKey = pages.map Page.openrouterKey) ∧
      ((req.aiModel = none ∨ req.aiModel = some "") →
        pages'.map Page.aiModel = pages.map Page.aiModel) ∧
      (req.knowledgeBase = none →
        pages'.map Page.knowledgeBase = pages.map Page.knowledgeBase) ∧
      (∀ b, req.enabled = some b →
        ∃ pre p post, pages = pre ++ p :: post ∧ p.id = i ∧
          pages' = pre ++ applyPageUpdate req p :: post ∧
          (applyPageUpdate req p).enabled = b) := by
  intro pages i req pages' h
  refine ⟨?_, ?_, ?_, ?_, ?_, ?_, ?_⟩
  · intro hv
    exact putApiPages_map_eq Page.name h
      (fun p => by simp [applyPageUpdate, updStr_noop _ _ hv])
  · intro hv
    exact putApiPages_map_eq Page.verifyToken h
      (fun p => by simp [applyPageUpdate, updSecret_noop _ _ hv])
  · intro hv
    exact putApiPages_map_eq Page.pageAccessToken h
      (fun p => by simp [applyPageUpdate, updSecret_noop _ _ hv])
  · intro hv
    exact putApiPages_map_eq Page.openrouterKey h
      (fun p => by simp [applyPageUpdate, updSecret_noop _ _ hv])
  · intro hv
    exact putApiPages_map_eq Page.aiModel h
      (fun p => by simp [applyPageUpdate, updStr_noop _ _ hv])
  · intro hv
    exact putApiPages_map_eq Page.knowledgeBase h
      (fun p => by simp [applyPageUpdate, hv])
  · intro b hb
    obtain ⟨pre, p, post, hsplit, hid, hupd⟩ := putApiPages_decomp h
    exact ⟨pre, p, post, hsplit, hid, hupd, by simp [applyPageUpdate, hb]⟩

/-- C10 witness: a concrete update carrying empty strings and
`enabled = false`. -/
theorem c10_absent_or_empty_fields_unchanged_witness :
    List.map Page.name [⟨"p1", "Nm", "VT", "PA", "KY", "MD", ["k"], false, "ts"⟩] =
      List.map Page.name [⟨"p1", "Nm", "VT", "PA", "KY", "MD", ["k"], true, "ts"⟩] ∧
    List.map Page.knowledgeBase [⟨"p1", "Nm", "VT", "PA", "KY", "MD", ["k"], false, "ts"⟩] =
      List.map Page.knowledgeBase [⟨"p1", "Nm", "VT", "PA", "KY", "MD", ["k"], true, "ts"⟩] :=
  ⟨(c10_absent_or_empty_fields_unchanged
      [⟨"p1", "Nm", "VT", "PA", "KY", "MD", ["k"], true, "ts"⟩] "p1"
      ⟨some "", none, some "", none, some "", none, some false⟩
      [⟨"p1", "Nm", "VT", "PA", "KY", "MD", ["k"], false, "ts"⟩] rfl).1
      (Or.inr rfl),
   (c10_absent_or_empty_fields_unchanged
      [⟨"p1", "Nm", "VT", "PA", "KY", "MD", ["k"], true, "ts"⟩] "p1"
      ⟨some "", none, some "", none, some "", none, some false⟩
      [⟨"p1", "Nm", "VT", "PA", "KY", "MD", ["k"], false, "ts"⟩] rfl).2.2.2.2.2.1 rfl⟩

/- ===================== Theorems: webhook verification (C2) ===================== -/

/-- C2 counterexample: on a failing verification the handler runs
`res.sendStatus(403)`, which sends the standard status message
`"Forbidden"` as the body — not an empty body as claimed. Concretely, with
one configured page whose token is `T1` and the supplied token `WRONG`,
the response is `403` with body `"Forbidden" ≠ ""`. -/
theorem c2_forbidden_body_counterexample :
    getWebhookMulti [⟨"p1", "n", "T1", "tok", "", "m", [], true, "ts"⟩]
      (some "subscribe") (some "WRONG") (some "xyz") = ⟨403, "Forbidden"⟩ ∧
    ("Forbidden" : String) ≠ "" :=
  ⟨rfl, by decide⟩

/-- C2 (amended): the verification endpoint responds `200` with the
supplied challenge as body iff the supplied mode is `subscribe` and the
supplied token equals some configured page's verify token (multi-tenant)
or the single configured token (single-tenant); in every other case it
responds `403` with body `"Forbidden"` (the status message sent by
`res.sendStatus(403)`). -/
theorem c2_verification_iff :
    (∀ (pages : List Page) (mode tok ch : String),
      (getWebhookMulti pages (some mode) (some tok) (some ch) = ⟨200, ch⟩ ↔
        (mode = "subscribe" ∧ ∃ p ∈ pages, tok = p.verifyToken)) ∧
      (¬(mode = "subscribe" ∧ ∃ p ∈ pages, tok = p.verifyToken) →
        getWebhookMulti pages (some mode) (some tok) (some ch) = ⟨403, "Forbidden"⟩)) ∧
    (∀ (cfg : Config) (mode tok ch : String),
      (getWebhook cfg (some mode) (some tok) (some ch) = ⟨200, ch⟩ ↔
        (mode = "subscribe" ∧ tok = cfg.verifyToken)) ∧
      (¬(mode = "subscribe" ∧ tok = cfg.verifyToken) →
        getWebhook cfg (some mode) (some tok) (some ch) = ⟨403, "Forbidden"⟩)) := by
  constructor
  · intro pages mode tok ch
    have hcond : ((some mode == some "subscribe") &&
        pages.any (fun p => some tok == some p.verifyToken)) = true ↔
        (mode = "subscribe" ∧ ∃ p ∈ pages, tok = p.verifyToken) := by
      simp [List.any_eq_true]
    by_cases hc : mode = "subscribe" ∧ ∃ p ∈ pages, tok = p.verifyToken
    · have heq : getWebhookMulti pages (some mode) (some tok) (some ch) = ⟨200, ch⟩ := by
        simp only [getWebhookMulti]
        rw [if_pos (hcond.mpr hc)]
        rfl
      exact ⟨⟨fun _ => hc, fun _ => heq⟩, fun hn => absurd hc hn⟩
    · have heq : getWebhookMulti pages (some mode) (some tok) (some ch) =
          forbiddenResponse := by
        simp only [getWebhookMulti]
        rw [if_neg (fun hbc => hc (hcond.mp hbc))]
      refine ⟨⟨fun habs => ?_, fun hcc => absurd hcc hc⟩, fun _ => heq⟩
      rw [heq] at habs
      have h43 : (403 : Nat) = 200 := congrArg HttpResponse.status habs
      exact absurd h43 (by decide)
  · intro cfg mode tok ch
    have hcond : ((some mode == some "subscribe") &&
        (some tok == some cfg.verifyToken)) = true ↔
        (mode = "subscribe" ∧ tok = cfg.verifyToken) := by
      simp
    by_cases hc : mode = "subscribe" ∧ tok = cfg.verifyToken
    · have heq : getWebhook cfg (some mode) (some tok) (some ch) = ⟨200, ch⟩ := by
        simp only [getWebhook]
        rw [if_pos (hcond.mpr hc)]
        rfl
      exact ⟨⟨fun _ => hc, fun _ => heq⟩, fun hn => absurd hc hn⟩
    · have heq : getWebhook cfg (some mode) (some tok) (some ch) =
          forbiddenResponse := by
        simp only [getWebhook]
        rw [if_neg (fun hbc => hc (hcond.mp hbc))]
      refine ⟨⟨fun habs => ?_, fun hcc => absurd hcc hc⟩, fun _ => heq⟩
      rw [heq] at habs
      have h43 : (403 : Nat) = 200 := congrArg HttpResponse.status habs
      exact absurd h43 (by decide)

/-- C2 witness: a concrete accepted handshake (token `T1` configured) and
a concrete rejected one. -/
theorem c2_verification_iff_witness :
    getWebhookMulti [⟨"p1", "n", "T1", "tok", "", "m", [], true, "ts"⟩]
      (some "subscribe") (some "T1") (some "xyz") = ⟨200, "xyz"⟩ ∧
    getWebhook ⟨"T1", "P", "K", "M"⟩ (some "subscribe") (some "WRONG") (some "xyz") =
      ⟨403, "Forbidden"⟩ :=
  ⟨((c2_verification_iff.1 [⟨"p1", "n", "T1", "tok", "", "m", [], true, "ts"⟩]
      "subscribe" "T1" "xyz").1).mpr
      ⟨rfl, ⟨"p1", "n", "T1", "tok", "", "m", [], true, "ts"⟩, by simp, rfl⟩,
   (c2_verification_iff.2 ⟨"T1", "P", "K", "M"⟩ "subscribe" "WRONG" "xyz").2
      (fun h => absurd h.2 (by decide))⟩

/- ===================== Theorems: completion client (C6) ===================== -/

theorem isEmpty_empty_str : ("" : String).isEmpty = true := rfl

theorem jsOrStr_of_ne {a : String} (h : a ≠ "") (b : String) : jsOrStr a b = a := by
  simp [jsOrStr, String.isEmpty_iff, h]

theorem key_resolution (page : Option Page) (g : GlobalConfig) :
    jsOrStr ((page.map Page.openrouterKey).getD "") g.openrouterKey =
      effectiveKeySpec page g := by
  cases page with
  | none => rfl
  | some p =>
    by_cases h : p.openrouterKey = ""
    · simp [jsOrStr, effectiveKeySpec, h, isEmpty_empty_str]
    · simp [jsOrStr, effectiveKeySpec, h, String.isEmpty_iff]

theorem model_resolution (page : Option Page) (g : GlobalConfig) :
    jsOrStr (jsOrStr ((page.map Page.aiModel).getD "") g.defaultAiModel)
        "openai/gpt-5.2" =
      effectiveModelSpec page g := by
  cases page with
  | none =>
    by_cases hd : g.defaultAiModel = ""
    · simp [jsOrStr, effectiveModelSpec, hd, isEmpty_empty_str]
    · simp [jsOrStr, effectiveModelSpec, hd, String.isEmpty_iff]
  | some p =>
    by_cases hp : p.aiModel = ""
    · by_cases hd : g.defaultAiModel = ""
      · simp [jsOrStr, effectiveModelSpec, hp, hd, isEmpty_empty_str]
      · simp [jsOrStr, effectiveModelSpec, hp, hd, String.isEmpty_iff, isEmpty_empty_str]
    · simp [jsOrStr, effectiveModelSpec, hp, String.isEmpty_iff]

/-- C6 counterexample: with no tenant and no global key the returned error
message is `"OpenRouter API key not configured for this page"`, not the
claimed `"API key not configured"` (the single-tenant variant likewise
returns `"OpenRouter API key not configured"`). -/
theorem c6_error_message_counterexample :
    generateAIResponse ⟨"m0", ""⟩ [] none "hi" "" (fun _ => NetResult.failure "x") =
      (AIResult.error "OpenRouter API key not configured for this page", []) ∧
    ("OpenRouter API key not configured for this page" : String) ≠
      "API key not configured" :=
  ⟨rfl, by decide⟩

/-- C6 (amended): when neither the tenant key nor the global key resolves
to a non-empty value, the completion client returns the structured error
(message `"OpenRouter API key not configured for this page"` in the
multi-tenant variant, `"OpenRouter API key not configured"` in the
single-tenant one) and issues no network request; otherwise it issues
exactly one request whose key and model are the tenant-specific values
when present and non-empty, else the global defaults (the model finally
falling back to the hardcoded `"openai/gpt-5.2"`). -/
theorem c6_key_resolution_and_no_call :
    (∀ (config : GlobalConfig) (pages : List Page) (pageId : Option String)
        (userMessage kbContext : String) (cnet : CompletionRequest → NetResult),
      (effectiveKeySpec (pages.find? (fun p => pageId == some p.id)) config = "" →
        generateAIResponse config pages pageId userMessage kbContext cnet =
          (AIResult.error "OpenRouter API key not configured for this page", [])) ∧
      (effectiveKeySpec (pages.find? (fun p => pageId == some p.id)) config ≠ "" →
        (generateAIResponse config pages pageId userMessage kbContext cnet).2 =
          [⟨effectiveKeySpec (pages.find? (fun p => pageId == some p.id)) config,
            effectiveModelSpec (pages.find? (fun p => pageId == some p.id)) config,
            systemPromptFor kbContext, userMessage, 500⟩])) ∧
    (∀ (config : Config) (userMessage kbContext : String)
        (cnet : CompletionRequest → NetResult),
      (config.openrouterKey = "" →
        generateAIResponseSingle config userMessage kbContext cnet =
          (AIResult.error "OpenRouter API key not configured", [])) ∧
      (config.openrouterKey ≠ "" →
        (generateAIResponseSingle config userMessage kbContext cnet).2 =
          [⟨config.openrouterKey, jsOrStr config.aiModel "openai/gpt-5.2",
            systemPromptFor kbContext, userMessage, 500⟩])) := by
  constructor
  · intro config pages pageId um kb cnet
    have hkey := key_resolution (pages.find? (fun p => pageId == some p.id)) config
    have hmodel := model_resolution (pages.find? (fun p => pageId == some p.id)) config
    constructor
    · intro h
      simp only [generateAIResponse]
      rw [hkey, hmodel, h]
      rfl
    · intro h
      simp only [generateAIResponse]
      rw [hkey, hmodel]
      rw [if_neg (fun hic => h ((String.isEmpty_iff _).mp hic))]
      split <;> rfl
  · intro config um kb cnet
    constructor
    · intro h
      simp only [generateAIResponseSingle]
      rw [h]
      rfl
    · intro h
      simp only [generateAIResponseSingle]
      rw [if_neg (fun hic => h ((String.isEmpty_iff _).mp hic))]
      split <;> rfl

/-- C6 witness: with a global key configured, exactly one request is
issued, carrying the global key and model. -/
theorem c6_key_resolution_and_no_call_witness :
    (generateAIResponse ⟨"m0", "K"⟩ [] none "hi" ""
        (fun _ => NetResult.success none)).2 =
      [⟨"K", "m0", systemPromptFor "", "hi", 500⟩] :=
  (c6_key_resolution_and_no_call.1 ⟨"m0", "K"⟩ [] none "hi" ""
      (fun _ => NetResult.success none)).2 (by decide)

/- ===================== Theorems: reply dispatcher (C7) ===================== -/

/-- C7 counterexample: the multi-tenant `sendAutoReply` guards only an
absent (falsy) credential, so with the masked credential `"***abcd"` it
does issue a send request (and logs success) instead of aborting. -/
theorem c7_masked_credential_counterexample :
    sendAutoReplyMulti "u1" "hello" "***abcd" (fun _ => SendOutcome.ok) =
      [Action.send ⟨"u1", "hello", "***abcd"⟩,
       Action.log "SENT" (LogData.sent "u1" "hello")] :=
  rfl

/-- C7 (amended): the single-tenant dispatcher aborts with an error log
and no send request when the credential is absent (empty), the known
placeholder, or masked; the multi-tenant dispatcher performs only the
absence check. -/
theorem c7_dispatcher_credential_guard :
    (∀ (senderId replyText tok : String) (snet : SendRequest → SendOutcome),
      (tok = "" ∨ tok = "YOUR_PAGE_ACCESS_TOKEN" ∨ jsStartsWith tok "***" = true) →
      sendAutoReply senderId replyText tok snet =
        [Action.log "ERROR" (LogData.errMsg "PAGE_ACCESS_TOKEN not configured")]) ∧
    (∀ (senderId replyText : String) (snet : SendRequest → SendOutcome),
      sendAutoReplyMulti senderId replyText "" snet =
        [Action.log "ERROR" (LogData.errMsg "PAGE_ACCESS_TOKEN not configured")]) := by
  constructor
  · intro s r tok snet h
    rcases h with rfl | rfl | hm
    · rfl
    · rfl
    · unfold sendAutoReply
      rw [if_pos (by simp [hm])]
  · intro s r snet
    rfl

/-- C7 witness: the single-tenant dispatcher aborts on a masked
credential. -/
theorem c7_dispatcher_credential_guard_witness :
    sendAutoReply "u1" "hello" "***abcd" (fun _ => SendOutcome.ok) =
      [Action.log "ERROR" (LogData.errMsg "PAGE_ACCESS_TOKEN not configured")] :=
  c7_dispatcher_credential_guard.1 "u1" "hello" "***abcd" (fun _ => SendOutcome.ok)
    (Or.inr (Or.inr rfl))

/- ===================== Theorems: webhook pipeline (C3) ===================== -/

theorem sendAutoReply_not_respond (s r tok : String) (snet : SendRequest → SendOutcome) :
    ∀ a ∈ sendAutoReply s r tok snet, isRespond a = false := by
  intro a ha
  simp only [sendAutoReply] at ha
  split at ha
  · simp only [List.mem_singleton] at ha
    subst ha; rfl
  · rcases hs : snet ⟨s, r, tok⟩ with _ | msg <;> rw [hs] at ha <;>
      simp only [List.mem_cons, List.mem_singleton, List.not_mem_nil, or_false] at ha <;>
      rcases ha with rfl | rfl <;> rfl

theorem sendAutoReplyMulti_not_respond (s r tok : String)
    (snet : SendRequest → SendOutcome) :
    ∀ a ∈ sendAutoReplyMulti s r tok snet, isRespond a = false := by
  intro a ha
  simp only [sendAutoReplyMulti] at ha
  split at ha
  · simp only [List.mem_singleton] at ha
    subst ha; rfl
  · rcases hs : snet ⟨s, r, tok⟩ with _ | msg <;> rw [hs] at ha <;>
      simp only [List.mem_cons, List.mem_singleton, List.not_mem_nil, or_false] at ha <;>
      rcases ha with rfl | rfl <;> rfl

theorem handleMessagingSingle_not_respond (config : Config) (docs : List KFile)
    (cnet : CompletionRequest → NetResult) (snet : SendRequest → SendOutcome)
    (m : MsgEvent) :
    ∀ a ∈ handleMessagingSingle config docs cnet snet m, isRespond a = false := by
  intro a ha
  obtain ⟨sid, mt⟩ := m
  cases mt with
  | none => simp [handleMessagingSingle] at ha
  | some t =>
    simp only [handleMessagingSingle] at ha
    split at ha
    · simp at ha
    · simp only [List.mem_cons] at ha
      rcases ha with rfl | ha
      · rfl
      rcases ha with rfl | ha
      · rfl
      rw [List.mem_append] at ha
      rcases ha with ha | ha
      · rw [List.mem_map] at ha
        obtain ⟨req, _, rfl⟩ := ha
        rfl
      · split at ha
        · split at ha
          · simp at ha
          · exact sendAutoReply_not_respond _ _ _ _ a ha
        · split at ha
          · simp at ha
          · rw [List.mem_append] at ha
            rcases ha with ha | ha
            · exact sendAutoReply_not_respond _ _ _ _ a ha
            · simp only [List.mem_singleton] at ha
              subst ha; rfl

theorem handleMessagingMulti_not_respond (g : GlobalConfig) (pages : List Page)
    (pc : Page) (docs : List KFile) (cnet : CompletionRequest → NetResult)
    (snet : SendRequest → SendOutcome) (m : MsgEvent) :
    ∀ a ∈ handleMessagingMulti g pages pc docs cnet snet m, isRespond a = false := by
  intro a ha
  obtain ⟨sid, mt⟩ := m
  cases mt with
  | none => simp [handleMessagingMulti] at ha
  | some t =>
    simp only [handleMessagingMulti] at ha
    split at ha
    · simp at ha
    · simp only [List.mem_cons] at ha
      rcases ha with rfl | ha
      · rfl
      rcases ha with rfl | ha
      · rfl
      rw [List.mem_append] at ha
      rcases ha with ha | ha
      · rw [List.mem_map] at ha
        obtain ⟨req, _, rfl⟩ := ha
        rfl
      · split at ha
        · split at ha
          · simp at ha
          · exact sendAutoReplyMulti_not_respond _ _ _ _ a ha
        · split at ha
          · simp at ha
          · rw [List.mem_append] at ha
            rcases ha with ha | ha
            · exact sendAutoReplyMulti_not_respond _ _ _ _ a ha
            · simp only [List.mem_singleton] at ha
              subst ha; rfl

theorem handleEntryMulti_not_respond (g : GlobalConfig) (pages : List Page)
    (docs : List KFile) (cnet : CompletionRequest → NetResult)
    (snet : SendRequest → SendOutcome) (e : Entry) :
    ∀ a ∈ handleEntryMulti g pages docs cnet snet e, isRespond a = false := by
  intro a ha
  simp only [handleEntryMulti, List.mem_cons] at ha
  rcases ha with rfl | ha
  · rfl
  split at ha
  · simp only [List.mem_singleton] at ha
    subst ha; rfl
  · split at ha
    · simp only [List.mem_singleton] at ha
      subst ha; rfl
    · rw [List.mem_flatten] at ha
      obtain ⟨l, hl, hal⟩ := ha
      rw [List.mem_map] at hl
      obtain ⟨msg, _, rfl⟩ := hl
      exact handleMessagingMulti_not_respond _ _ _ _ _ _ _ a hal

/-- C3: both POST /webhook handlers log receipt and immediately send the
response `200 "OK"` as their second action — before any tenant
resolution, knowledge search, completion call or reply dispatch, which
all live in the remainder of the trace — and no further response is ever
sent, for every payload (including a non-`page` object) and every
outcome of the downstream oracles. -/
theorem c3_immediate_ok_response :
    ∀ (config : Config) (g : GlobalConfig) (pages : List Page) (docs : List KFile)
      (cnet : CompletionRequest → NetResult) (snet : SendRequest → SendOutcome)
      (body : WebhookBody),
      (postWebhook config docs cnet snet body).take 2 =
        [Action.log "RECEIVED" (LogData.received body), Action.respond 200 "OK"] ∧
      ((postWebhook config docs cnet snet body).drop 2).all
        (fun a => !(isRespond a)) = true ∧
      (postWebhookMulti g pages docs cnet snet body).take 2 =
        [Action.log "RECEIVED" (LogData.received body), Action.respond 200 "OK"] ∧
      ((postWebhookMulti g pages docs cnet snet body).drop 2).all
        (fun a => !(isRespond a)) = true := by
  intro config g pages docs cnet snet body
  refine ⟨rfl, ?_, rfl, ?_⟩
  · rw [List.all_eq_true]
    intro a ha
    simp only [postWebhook, List.drop_succ_cons, List.drop_zero] at ha
    split at ha
    · rw [List.mem_flatten] at ha
      obtain ⟨l, hl, hal⟩ := ha
      rw [List.mem_map] at hl
      obtain ⟨e, _, rfl⟩ := hl
      rw [List.mem_flatten] at hal
      obtain ⟨l2, hl2, hal2⟩ := hal
      rw [List.mem_map] at hl2
      obtain ⟨msg, _, rfl⟩ := hl2
      rw [handleMessagingSingle_not_respond config docs cnet snet msg a hal2]
      rfl
    · simp at ha
  · rw [List.all_eq_true]
    intro a ha
    simp only [postWebhookMulti, List.drop_succ_cons, List.drop_zero] at ha
    split at ha
    · rw [List.mem_flatten] at ha
      obtain ⟨l, hl, hal⟩ := ha
      rw [List.mem_map] at hl
      obtain ⟨e, _, rfl⟩ := hl
      rw [handleEntryMulti_not_respond g pages docs cnet snet e a hal]
      rfl
    · simp at ha

/- ===================== Theorems: dispatch fidelity (C5) ===================== -/

theorem jsOrStr_isEmpty_false {a b : String} (hb : b.isEmpty = false) :
    (jsOrStr a b).isEmpty = false := by
  unfold jsOrStr
  split
  · exact hb
  · next h => simpa using h

theorem generate_response_ne_empty (g : GlobalConfig) (pages : List Page)
    (pageId : Option String) (um kb : String) (cnet : CompletionRequest → NetResult)
    (r : String)
    (h : (generateAIResponse g pages pageId um kb cnet).1 = AIResult.response r) :
    r.isEmpty = false := by
  simp only [generateAIResponse] at h
  split at h
  · simp at h
  · split at h
    · simp at h
      exact h ▸ jsOrStr_isEmpty_false rfl
    · simp at h

theorem generate_error_cases (g : GlobalConfig) (pages : List Page)
    (pageId : Option String) (um kb : String) (cnet : CompletionRequest → NetResult)
    (e : String)
    (h : (generateAIResponse g pages pageId um kb cnet).1 = AIResult.error e) :
    e = "OpenRouter API key not configured for this page" ∨
      ∃ req, cnet req = NetResult.failure e := by
  simp only [generateAIResponse] at h
  split at h
  · simp at h
    exact Or.inl h.symm
  · split at h
    · simp at h
    · next msg heq =>
      simp at h
      subst h
      exact Or.inr ⟨_, heq⟩

theorem generateSingle_response_ne_empty (config : Config) (um kb : String)
    (cnet : CompletionRequest → NetResult) (r : String)
    (h : (generateAIResponseSingle config um kb cnet).1 = AIResult.response r) :
    r.isEmpty = false := by
  simp only [generateAIResponseSingle] at h
  split at h
  · simp at h
  · split at h
    · simp at h
      exact h ▸ jsOrStr_isEmpty_false rfl
    · simp at h

theorem generateSingle_error_cases (config : Config) (um kb : String)
    (cnet : CompletionRequest → NetResult) (e : String)
    (h : (generateAIResponseSingle config um kb cnet).1 = AIResult.error e) :
    e = "OpenRouter API key not configured" ∨
      ∃ req, cnet req = NetResult.failure e := by
  simp only [generateAIResponseSingle] at h
  split at h
  · simp at h
    exact Or.inl h.symm
  · split at h
    · simp at h
    · next msg heq =>
      simp at h
      subst h
      exact Or.inr ⟨_, heq⟩

theorem sendAutoReply_send_text (s r tok : String) (snet : SendRequest → SendOutcome) :
    ∀ sr, Action.send sr ∈ sendAutoReply s r tok snet → sr.text = r := by
  intro sr h
  simp only [sendAutoReply] at h
  split at h
  · simp at h
  · rcases hs : snet ⟨s, r, tok⟩ with _ | m <;> rw [hs] at h <;> simp at h <;>
      subst h <;> rfl

theorem sendAutoReplyMulti_send_text (s r tok : String)
    (snet : SendRequest → SendOutcome) :
    ∀ sr, Action.send sr ∈ sendAutoReplyMulti s r tok snet → sr.text = r := by
  intro sr h
  simp only [sendAutoReplyMulti] at h
  split at h
  · simp at h
  · rcases hs : snet ⟨s, r, tok⟩ with _ | m <;> rw [hs] at h <;> simp at h <;>
      subst h <;> rfl

theorem handleMessagingMulti_eq (g : GlobalConfig) (pages : List Page) (pc : Page)
    (docs : List KFile) (cnet : CompletionRequest → NetResult)
    (snet : SendRequest → SendOutcome) (sid t : String) (hne : t.isEmpty = false) :
    handleMessagingMulti g pages pc docs cnet snet ⟨sid, some t⟩ =
      Action.log "MESSAGE" (LogData.message (some pc.name) sid t) ::
      Action.search t ::
      (((generateAIResponse g pages (some pc.id) t (searchKnowledge t docs) cnet).2).map
          Action.completion ++
        (match (generateAIResponse g pages (some pc.id) t (searchKnowledge t docs) cnet).1 with
         | AIResult.response r =>
           if r.isEmpty then [] else sendAutoReplyMulti sid r pc.pageAccessToken snet
         | AIResult.error e =>
           if e.isEmpty then [] else
             sendAutoReplyMulti sid fallbackReply pc.pageAccessToken snet ++
             [Action.log "ERROR" (LogData.errMsg e)])) := by
  simp only [handleMessagingMulti]
  rw [if_neg (by simp [hne])]

theorem handleMessagingSingle_eq (config : Config) (docs : List KFile)
    (cnet : CompletionRequest → NetResult) (snet : SendRequest → SendOutcome)
    (sid t : String) (hne : t.isEmpty = false) :
    handleMessagingSingle config docs cnet snet ⟨sid, some t⟩ =
      Action.log "MESSAGE" (LogData.message none sid t) ::
      Action.search t ::
      (((generateAIResponseSingle config t (searchKnowledge t docs) cnet).2).map
          Action.completion ++
        (match (generateAIResponseSingle config t (searchKnowledge t docs) cnet).1 with
         | AIResult.response r =>
           if r.isEmpty then [] else sendAutoReply sid r config.pageAccessToken snet
         | AIResult.error e =>
           if e.isEmpty then [] else
             sendAutoReply sid fallbackReply config.pageAccessToken snet ++
             [Action.log "ERROR" (LogData.errMsg e)])) := by
  simp only [handleMessagingSingle]
  rw [if_neg (by simp [hne])]

/-- C5: for a messaging item with non-empty text, when the completion
client returns a response every dispatched reply carries exactly that
text; when it returns an error, every dispatched reply carries exactly
the fixed fallback text and the underlying error message is written to
the log — the raw error text is never dispatched. Holds for both
variants; the oracle hypothesis states that upstream failure messages
are non-empty, which is what the `axios` error path guarantees. -/
theorem c5_reply_dispatch_fidelity :
    ∀ (g : GlobalConfig) (pages : List Page) (pc : Page) (config : Config)
      (docs : List KFile) (cnet : CompletionRequest → NetResult)
      (snet : SendRequest → SendOutcome) (m : MsgEvent) (t : String),
      m.text = some t → t.isEmpty = false →
      (∀ req msg, cnet req = NetResult.failure msg → msg.isEmpty = false) →
      ((∀ r, (generateAIResponse g pages (some pc.id) t (searchKnowledge t docs) cnet).1 =
          AIResult.response r →
          ∀ sr, Action.send sr ∈ handleMessagingMulti g pages pc docs cnet snet m →
            sr.text = r) ∧
       (∀ e, (generateAIResponse g pages (some pc.id) t (searchKnowledge t docs) cnet).1 =
          AIResult.error e →
          (∀ sr, Action.send sr ∈ handleMessagingMulti g pages pc docs cnet snet m →
            sr.text = fallbackReply) ∧
          Action.log "ERROR" (LogData.errMsg e) ∈
            handleMessagingMulti g pages pc docs cnet snet m)) ∧
      ((∀ r, (generateAIResponseSingle config t (searchKnowledge t docs) cnet).1 =
          AIResult.response r →
          ∀ sr, Action.send sr ∈ handleMessagingSingle config docs cnet snet m →
            sr.text = r) ∧
       (∀ e, (generateAIResponseSingle config t (searchKnowledge t docs) cnet).1 =
          AIResult.error e →
          (∀ sr, Action.send sr ∈ handleMessagingSingle config docs cnet snet m →
            sr.text = fallbackReply) ∧
          Action.log "ERROR" (LogData.errMsg e) ∈
            handleMessagingSingle config docs cnet snet m)) := by
  intro g pages pc config docs cnet snet m t hmt hne herr
  obtain ⟨sid, mt⟩ := m
  cases mt with
  | none => simp at hmt
  | some t0 =>
    have ht : t0 = t := by simpa using hmt
    subst ht
    have hmeq := handleMessagingMulti_eq g pages pc docs cnet snet sid t0 hne
    have hseq := handleMessagingSingle_eq config docs cnet snet sid t0 hne
    constructor
    · constructor
      · intro r hr sr hsr
        have hrne := generate_response_ne_empty g pages (some pc.id) t0
          (searchKnowledge t0 docs) cnet r hr
        rw [hmeq, hr] at hsr
        simp [hrne] at hsr
        exact sendAutoReplyMulti_send_text sid r pc.pageAccessToken snet sr hsr
      · intro e he
        have hene : e.isEmpty = false := by
          rcases generate_error_cases g pages (some pc.id) t0
            (searchKnowledge t0 docs) cnet e he with hc | ⟨req, hreq⟩
          · rw [hc]; rfl
          · exact herr req e hreq
        constructor
        · intro sr hsr
          rw [hmeq, he] at hsr
          simp [hene] at hsr
          exact sendAutoReplyMulti_send_text sid fallbackReply pc.pageAccessToken snet sr hsr
        · rw [hmeq, he]
          simp [hene]
    · constructor
      · intro r hr sr hsr
        have hrne := generateSingle_response_ne_empty config t0
          (searchKnowledge t0 docs) cnet r hr
        rw [hseq, hr] at hsr
        simp [hrne] at hsr
        exact sendAutoReply_send_text sid r config.pageAccessToken snet sr hsr
      · intro e he
        have hene : e.isEmpty = false := by
          rcases generateSingle_error_cases config t0
            (searchKnowledge t0 docs) cnet e he with hc | ⟨req, hreq⟩
          · rw [hc]; rfl
          · exact herr req e hreq
        constructor
        · intro sr hsr
          rw [hseq, he] at hsr
          simp [hene] at hsr
          exact sendAutoReply_send_text sid fallbackReply config.pageAccessToken snet sr hsr
        · rw [hseq, he]
          simp [hene]

/-- C5 witness: a concrete failing completion (message `"boom"`) gets its
error logged during multi-tenant processing of a concrete text message. -/
theorem c5_reply_dispatch_fidelity_witness :
    Action.log "ERROR" (LogData.errMsg "boom") ∈
      handleMessagingMulti ⟨"m0", "K"⟩ []
        ⟨"p1", "N", "V", "PAT", "", "", [], true, "ts"⟩ []
        (fun _ => NetResult.failure "boom") (fun _ => SendOutcome.ok)
        ⟨"u", some "hello"⟩ :=
  ((c5_reply_dispatch_fidelity ⟨"m0", "K"⟩ []
      ⟨"p1", "N", "V", "PAT", "", "", [], true, "ts"⟩ ⟨"V", "P", "K", "M"⟩ []
      (fun _ => NetResult.failure "boom") (fun _ => SendOutcome.ok)
      ⟨"u", some "hello"⟩ "hello" rfl rfl
      (fun req msg h => by injection h with h2; exact h2 ▸ rfl)).1.2
    "boom" rfl).2

end FBWebhook
